import Mathlib

/-!
# Meteorite Protection System: a shallow embedding of `Main.cpp`

Modelling conventions.

* A C++ `double` is a rational number (`ℚ`).  Positions, velocities, health
  and the ratio are computed exactly.  The score formula of line 456 casts its
  `double` results to `int`, so there every `double` operation is rounded to
  the nearest binary64 value, ties to even (`roundDouble`).
* A C++ `int` is an `Int` kept in the 32-bit two's complement range: the cast
  `(int)x` truncates toward zero, `/` on integers is truncating division, and
  the results of the cast, of the product and sum of the score are reduced
  modulo 2^32 into the signed range (`wrapInt`).  Statements about scores carry
  the hypotheses under which no reduction takes place.
* Angles are measured in degrees, so `270_deg` is `270`.
* Every `Stopwatch` and `Timer` reads one wall clock.  The reading taken in a
  frame is the explicit argument `now` (seconds).
* Engine numerics that have no rational closed form (square root, sine,
  cosine, arc tangent, the sine easing curve) and the scene size are fields of
  an environment `Env`; all definitions are parametric in it.
* Random draws come from an explicit stream of uniform samples in `[0, 1)`.
* Drawing and the particle `Effect` sink never feed back into the simulation
  and are left out.
-/

namespace MeteoriteGame

/-! ## Engine primitives -/

/-- Engine type `Vec2`. -/
structure Vec2 where
  x : ℚ
  y : ℚ
  deriving DecidableEq

namespace Vec2

/-- Engine `operator+` on `Vec2`. -/
def add (a b : Vec2) : Vec2 := ⟨a.x + b.x, a.y + b.y⟩

/-- Engine `operator-` on `Vec2`. -/
def sub (a b : Vec2) : Vec2 := ⟨a.x - b.x, a.y - b.y⟩

/-- Engine `operator*` of a `Vec2` by a scalar. -/
def scale (a : Vec2) (k : ℚ) : Vec2 := ⟨a.x * k, a.y * k⟩

/-- Engine `Vec2::lengthSq`. -/
def lengthSq (a : Vec2) : ℚ := a.x * a.x + a.y * a.y

/-- Engine `Vec2::distanceFromSq`. -/
def distanceFromSq (a b : Vec2) : ℚ := (a.sub b).lengthSq

end Vec2

/-- Engine services the simulation reads: the scene size and the numeric
functions without a rational closed form. -/
structure Env where
  /-- Value of `Scene::Width()`. -/
  width : Int
  /-- Value of `Scene::Height()`. -/
  height : Int
  /-- Square root used by `Vec2::length`. -/
  sqrt : ℚ → ℚ
  /-- Sine of an angle in degrees. -/
  sinDeg : ℚ → ℚ
  /-- Cosine of an angle in degrees. -/
  cosDeg : ℚ → ℚ
  /-- Engine `Atan2 y x`, in degrees. -/
  atan2Deg : ℚ → ℚ → ℚ
  /-- Engine `EaseInOutSine`. -/
  easeInOutSine : ℚ → ℚ

/-- Engine `Vec2::length`. -/
def Vec2.length (env : Env) (a : Vec2) : ℚ := env.sqrt a.lengthSq

/-- Engine `Vec2::setLength`: rescale to the given length, the zero vector is
left alone. -/
def Vec2.setLength (env : Env) (a : Vec2) (len : ℚ) : Vec2 :=
  if a.length env = 0 then a else a.scale (len / a.length env)

/-- Engine type `Circular`: polar coordinates, `theta` clockwise from twelve
o'clock. -/
structure Circular where
  r : ℚ
  theta : ℚ
  deriving DecidableEq

/-- Engine `Circular::fastToVec2`. -/
def Circular.fastToVec2 (env : Env) (c : Circular) : Vec2 :=
  ⟨env.sinDeg c.theta * c.r, -(env.cosDeg c.theta) * c.r⟩

/-- Engine type `Circle`. -/
structure Circle where
  center : Vec2
  r : ℚ
  deriving DecidableEq

/-- Engine type `RectF` (also used for the integer `Rect`). -/
structure RectF where
  x : ℚ
  y : ℚ
  w : ℚ
  h : ℚ
  deriving DecidableEq

/-- Engine `RectF::stretched(xy)`. -/
def RectF.stretched (a : RectF) (d : ℚ) : RectF :=
  ⟨a.x - d, a.y - d, a.w + d * 2, a.h + d * 2⟩

/-- Engine `RectF::stretched(x, y)`. -/
def RectF.stretchedXY (a : RectF) (dx dy : ℚ) : RectF :=
  ⟨a.x - dx, a.y - dy, a.w + dx * 2, a.h + dy * 2⟩

/-- Engine `Scene::Rect()`. -/
def sceneRect (env : Env) : RectF := ⟨0, 0, env.width, env.height⟩

/-- Engine `Circle::set`. -/
def Circle.set (_c : Circle) (pos : Vec2) (r : ℚ) : Circle := ⟨pos, r⟩

/-- Engine `Circle::intersects(Vec2)`. -/
def Circle.intersectsPoint (c : Circle) (p : Vec2) : Bool :=
  decide (p.distanceFromSq c.center ≤ c.r * c.r)

/-- Engine `Circle::intersects(Circle)`. -/
def Circle.intersectsCircle (a b : Circle) : Bool :=
  decide (a.center.distanceFromSq b.center ≤ (a.r + b.r) * (a.r + b.r))

/-- Engine `Circle::intersects(RectF)`. -/
def Circle.intersectsRect (c : Circle) (a : RectF) : Bool :=
  let aw := a.w * (1 / 2)
  let ah := a.h * (1 / 2)
  let cX := |c.center.x - a.x - aw|
  let cY := |c.center.y - a.y - ah|
  if cX > aw + c.r then false
  else if cY > ah + c.r then false
  else if cX ≤ aw ∨ cY ≤ ah then true
  else decide ((cX - aw) * (cX - aw) + (cY - ah) * (cY - ah) ≤ c.r * c.r)

/-- Engine `Clamp`. -/
def Clamp (x lo hi : ℚ) : ℚ := if x < lo then lo else if hi < x then hi else x

/-- Engine `Sign`. -/
def Sign (x : ℚ) : ℚ := if x < 0 then -1 else if 0 < x then 1 else 0

/-- Engine `EaseOutCubic`. -/
def EaseOutCubic (t : ℚ) : ℚ := 1 - (1 - t) * (1 - t) * (1 - t)

/-- A 32-bit `int` result: reduction modulo 2^32 into the signed range. -/
def wrapInt (x : Int) : Int := (x + 2147483648) % 4294967296 - 2147483648

/-- The C++ cast `(int)x` of a `double`: truncation toward zero, in 32 bits. -/
def toInt (x : ℚ) : Int := wrapInt (if 0 ≤ x then ⌊x⌋ else ⌈x⌉)

/-- Number of binary digits of `n`, by repeated halving (`fuel` steps at
most). -/
def natBitsAux : Nat → Nat → Nat
  | 0, _ => 0
  | fuel + 1, n => if n = 0 then 0 else natBitsAux fuel (n / 2) + 1

/-- Number of binary digits of `n`. -/
def natBits (n : Nat) : Nat := natBitsAux n n

/-- Two to an integer power. -/
def twoPow (e : Int) : ℚ :=
  if 0 ≤ e then ((2 ^ e.toNat : Nat) : ℚ) else 1 / ((2 ^ (-e).toNat : Nat) : ℚ)

/-- Nearest integer to a non-negative rational, ties to the even one. -/
def roundHalfEven (x : ℚ) : Int :=
  if x - ⌊x⌋ < 1 / 2 then ⌊x⌋
  else if 1 / 2 < x - ⌊x⌋ then ⌊x⌋ + 1
  else if ⌊x⌋ % 2 = 0 then ⌊x⌋ else ⌊x⌋ + 1

/-- Binary exponent of a positive rational `x`: the `e` with
`2^e ≤ x < 2^(e+1)`. -/
def binaryExponent (x : ℚ) : Int :=
  if twoPow ((natBits x.num.toNat : Int) - (natBits x.den : Int)) ≤ x then
    (natBits x.num.toNat : Int) - (natBits x.den : Int)
  else (natBits x.num.toNat : Int) - (natBits x.den : Int) - 1

/-- Spacing of the binary64 values around a positive rational: 53 significant
bits, the exponent not below -1022. -/
def doubleUlp (x : ℚ) : ℚ := twoPow (max (binaryExponent x) (-1022) - 52)

/-- Nearest binary64 value to a positive rational. -/
def roundDoublePos (x : ℚ) : ℚ := (roundHalfEven (x / doubleUlp x) : ℚ) * doubleUlp x

/-- Result of a `double` operation whose exact value is `x`: the nearest
binary64 value, ties to even (overflow to infinity, beyond 2^1024, is not
modelled). -/
def roundDouble (x : ℚ) : ℚ :=
  if x = 0 then 0 else if 0 < x then roundDoublePos x else -roundDoublePos (-x)

/-- Engine `Stopwatch`, as the program uses it (`start`, `reset`, `restart`):
the clock reading at which it was started, if it is running. -/
structure Stopwatch where
  startedAt : Option ℚ
  deriving DecidableEq

namespace Stopwatch

/-- Engine `Stopwatch::isRunning`. -/
def isRunning (s : Stopwatch) : Bool := s.startedAt.isSome

/-- Engine `Stopwatch::sF`: elapsed seconds. -/
def sF (s : Stopwatch) (now : ℚ) : ℚ :=
  match s.startedAt with
  | some t => now - t
  | none => 0

/-- Engine `Stopwatch::start`. -/
def start (s : Stopwatch) (now : ℚ) : Stopwatch :=
  match s.startedAt with
  | some _ => s
  | none => ⟨some now⟩

/-- Engine `Stopwatch::reset`. -/
def reset (_s : Stopwatch) : Stopwatch := ⟨none⟩

/-- Engine `Stopwatch::restart`. -/
def restart (_s : Stopwatch) (now : ℚ) : Stopwatch := ⟨some now⟩

end Stopwatch

/-- Engine `Timer`, as the program uses it: a duration and the clock reading at
which it was started, if it was. -/
structure Timer where
  duration : ℚ
  startedAt : Option ℚ
  deriving DecidableEq

namespace Timer

/-- Engine `Timer::sF`: remaining seconds, never below zero. -/
def sF (t : Timer) (now : ℚ) : ℚ :=
  match t.startedAt with
  | some t0 => max 0 (t.duration - (now - t0))
  | none => t.duration

/-- Engine `Timer::reachedZero`. -/
def reachedZero (t : Timer) (now : ℚ) : Bool := decide (t.sF now = 0)

/-- Engine `Timer::isRunning`: started and not yet at zero. -/
def isRunning (t : Timer) (now : ℚ) : Bool :=
  t.startedAt.isSome && !t.reachedZero now

/-- Engine `Timer::restart()`. -/
def restart (t : Timer) (now : ℚ) : Timer := ⟨t.duration, some now⟩

/-- Engine `Timer::restart(duration)`. -/
def restartWith (_t : Timer) (d now : ℚ) : Timer := ⟨d, some now⟩

/-- Engine `Timer::reset`. -/
def reset (t : Timer) : Timer := ⟨t.duration, none⟩

end Timer

/-- Stream of uniform samples in `[0, 1)` consumed by the engine's random
functions. -/
abbrev Rng := List ℚ

/-- One uniform sample and the rest of the stream. -/
def Rng.next (g : Rng) : ℚ × Rng := (g.headD 0, g.tail)

/-- Engine `Random(min, max)` on `double`. -/
def Random (lo hi : ℚ) (g : Rng) : ℚ × Rng :=
  (lo + (hi - lo) * (Rng.next g).1, (Rng.next g).2)

/-- Engine `Random<int>(min, max)`: uniform on the closed integer range. -/
def RandomInt (lo hi : Int) (g : Rng) : Int × Rng :=
  (lo + ⌊((hi - lo + 1 : Int) : ℚ) * (Rng.next g).1⌋, (Rng.next g).2)

/-- Engine `RandomBool(p)`. -/
def RandomBool (p : ℚ) (g : Rng) : Bool × Rng :=
  (decide ((Rng.next g).1 < p), (Rng.next g).2)

/-- Engine `RandomVec2(length)`: a vector of the given length in a uniform
direction. -/
def RandomVec2 (env : Env) (len : ℚ) (g : Rng) : Vec2 × Rng :=
  (⟨env.cosDeg ((Random 0 360 g).1) * len, env.sinDeg ((Random 0 360 g).1) * len⟩,
    (Random 0 360 g).2)

/-- Engine `RandomVec2(RectF)`: a uniform point of the rectangle. -/
def RandomVec2In (a : RectF) (g : Rng) : Vec2 × Rng :=
  (⟨(Random a.x (a.x + a.w) g).1,
    (Random a.y (a.y + a.h) (Random a.x (a.x + a.w) g).2).1⟩,
    (Random a.y (a.y + a.h) (Random a.x (a.x + a.w) g).2).2)

/-! ## Meteorite -/

/-- Source `enum class MeteoriteType`. -/
inductive MeteoriteType where
  | Destroyable
  | Return
  deriving DecidableEq

/-- Source `class Meteorite`. -/
structure Meteorite where
  pos : Vec2
  velocity : Circular
  size : ℚ
  time : Stopwatch
  rotationSpeed : ℚ
  collision : Circle
  life : ℚ
  timerDamaged : Timer
  damaged : Bool
  type : MeteoriteType
  deriving DecidableEq

namespace Meteorite

/-- Source constructor `Meteorite::Meteorite`; `rot` is the random rotation
speed drawn by the initialiser list. -/
def new (now rot : ℚ) (pos : Vec2) (velocity : Circular) (size : ℚ)
    (type : MeteoriteType) : Meteorite :=
  { pos := pos
    velocity := velocity
    size := size
    time := ⟨some now⟩
    rotationSpeed := rot
    collision := ⟨pos, 1⟩
    life := size
    timerDamaged := ⟨1 / 5, none⟩
    damaged := false
    type := type }

/-- Source `Meteorite::update`. -/
def update (env : Env) (dt : ℚ) (m : Meteorite) : Meteorite :=
  let velocity : Circular :=
    if m.type = MeteoriteType.Return then
      { m.velocity with r := m.velocity.r + 5 / 2 * dt }
    else m.velocity
  let pos := m.pos.add (((velocity.fastToVec2 env).scale dt).scale 60)
  { m with velocity := velocity, pos := pos, collision := m.collision.set pos m.size }

/-- Source `Meteorite::isAlive`. -/
def isAlive (env : Env) (now : ℚ) (m : Meteorite) : Bool :=
  if m.life < 0 then false
  else if m.time.sF now < 1 then true
  else m.collision.intersectsRect ((sceneRect env).stretched 32)

/-- Source `Meteorite::damage`. -/
def damage (now damageAmount : ℚ) (m : Meteorite) : Meteorite :=
  if m.type ≠ MeteoriteType.Destroyable then m
  else
    let m1 := { m with life := m.life - damageAmount }
    let m2 :=
      if !m1.timerDamaged.isRunning now then
        { m1 with timerDamaged := m1.timerDamaged.restartWith (1 / 5) now }
      else m1
    if !m2.damaged then
      { m2 with damaged := true, velocity := { m2.velocity with r := m2.velocity.r * (1 / 5) } }
    else m2

end Meteorite

/-! ## Player -/

/-- Source `class Player`. -/
structure Player where
  pos : Vec2
  life : Int
  collision : Circle
  deriving DecidableEq

namespace Player

/-- Source constructor `Player::Player`.  The member `collision_` has no
initialiser, so its value until the first `update` is indeterminate; it is the
argument `indeterminate`. -/
def new (env : Env) (indeterminate : Circle) : Player :=
  { pos := ⟨32, ((Int.tdiv env.height 2 : Int) : ℚ)⟩
    life := 1
    collision := indeterminate }

/-- Source `Player::update`; `cursor` is `Cursor::PosF()`. -/
def update (env : Env) (cursor : Vec2) (dt : ℚ) (p : Player) : Player :=
  if p.life ≤ 0 then p
  else
    let MaxSpeed : ℚ := 12 * 60 * dt
    let posDiff0 := cursor.sub p.pos
    let posDiff :=
      if posDiff0.length env > MaxSpeed then posDiff0.setLength env MaxSpeed else posDiff0
    let moved := p.pos.add posDiff
    let pos : Vec2 :=
      ⟨Clamp moved.x 24 ((env.width : ℚ) - 24), Clamp moved.y 24 ((env.height : ℚ) - 24)⟩
    { p with pos := pos, collision := p.collision.set pos 16 }

/-- Source `Player::damage`. -/
def damage (p : Player) : Player := { p with life := p.life - 1 }

end Player

/-! ## Barrier -/

/-- Source `class Barrier`. -/
structure Barrier where
  pos : Vec2
  velocity : Circular
  size : ℚ
  time : Stopwatch
  timeActivated : Stopwatch
  collision : Circle
  isPlayerInside : Bool
  deriving DecidableEq

namespace Barrier

/-- Source constructor `Barrier::Barrier`. -/
def new (now : ℚ) (pos : Vec2) (velocity : Circular) (size : ℚ) : Barrier :=
  { pos := pos
    velocity := velocity
    size := size
    time := ⟨some now⟩
    timeActivated := ⟨none⟩
    collision := ⟨pos, 1⟩
    isPlayerInside := false }

/-- Source `Barrier::isActivated`. -/
def isActivated (b : Barrier) : Bool := b.timeActivated.isRunning

/-- Source `Barrier::update`. -/
def update (env : Env) (now dt : ℚ) (player : Player) (b : Barrier) : Barrier :=
  let vel := (b.velocity.fastToVec2 env).scale
    (1 - 85 / 100 * EaseOutCubic (Clamp (b.time.sF now / (8 / 10)) 0 1))
  let pos := b.pos.add ((vel.scale dt).scale 60)
  let inside := b.collision.intersectsPoint player.pos
  let b1 : Barrier := { b with pos := pos, isPlayerInside := inside }
  let b2 : Barrier :=
    if !b1.isActivated && b1.isPlayerInside then
      { b1 with
        timeActivated := b1.timeActivated.start now
        velocity := { b1.velocity with r := b1.velocity.r * (3 / 10) } }
    else b1
  let size : ℚ :=
    if b2.isActivated then
      b2.size + b2.size * (7 / 10) * EaseOutCubic (Clamp (b2.timeActivated.sF now / (2 / 10)) 0 1)
    else b2.size
  { b2 with collision := b2.collision.set pos size }

/-- Source `Barrier::isAlive`. -/
def isAlive (env : Env) (now : ℚ) (b : Barrier) : Bool :=
  if b.time.sF now < 1 then true
  else if b.timeActivated.sF now > 7 / 2 then false
  else b.collision.intersectsRect ((sceneRect env).stretched 32)

end Barrier

/-! ## `UpdateMeteorites` -/

/-- Body of the `for` loop of `UpdateMeteorites` for one meteorite. -/
def meteoriteStep (env : Env) (now dt : ℚ) (player : Player) (m : Meteorite) :
    Player × Meteorite :=
  if player.life > 0 ∧ (m.update env dt).collision.intersectsPoint player.collision.center then
    (player.damage, (m.update env dt).damage now (9999 * dt))
  else (player, m.update env dt)

/-- The `for` loop of `UpdateMeteorites`: the meteorites are visited in order,
the player is threaded through. -/
def meteoriteLoop (env : Env) (now dt : ℚ) : Player → List Meteorite → Player × List Meteorite
  | player, [] => (player, [])
  | player, m :: ms =>
    ((meteoriteLoop env now dt (meteoriteStep env now dt player m).1 ms).1,
      (meteoriteStep env now dt player m).2 ::
        (meteoriteLoop env now dt (meteoriteStep env now dt player m).1 ms).2)

/-- Source `UpdateMeteorites`: the loop, then `remove_if` of the meteorites that
are not alive. -/
def UpdateMeteorites (env : Env) (now dt : ℚ) (meteorites : List Meteorite) (player : Player) :
    List Meteorite × Player :=
  (((meteoriteLoop env now dt player meteorites).2).filter (fun m => m.isAlive env now),
    (meteoriteLoop env now dt player meteorites).1)

/-! ## `UpdateBarriers` -/

/-- The `double` value of `100 + 10 * m->size() * 5` on line 456: the two
products and the sum, each rounded. -/
def scoreBase (size : ℚ) : ℚ :=
  roundDouble (100 + roundDouble (roundDouble (10 * size) * 5))

/-- The `double` value of `ratio * 10` on line 456. -/
def scoreFactor (ratio : ℚ) : ℚ := roundDouble (ratio * 10)

/-- Score added when a meteorite is destroyed, line 456 of the source:
`(((int)(100 + 10 * size * 5) * ((int)(ratio * 10))) / 100) * 10`. -/
def scoreAward (size ratio : ℚ) : Int :=
  wrapInt (Int.tdiv (wrapInt (toInt (scoreBase size) * toInt (scoreFactor ratio))) 100 * 10)

/-- What the damage pass of `UpdateBarriers` accumulates: the score, the
scheduled return-fire positions and the random stream. -/
structure HitState where
  score : Int
  returnBulletsPos : List Vec2
  rng : Rng
  deriving DecidableEq

/-- Body of the inner loop of `UpdateBarriers` for one activated barrier and one
meteorite. -/
def barrierHit (now dt rank ratio : ℚ) (b : Barrier) (st : HitState) (m : Meteorite) :
    HitState × Meteorite :=
  if b.collision.intersectsCircle m.collision then
    if m.life ≥ 0 then
      if (m.damage now (60 * dt)).life ≤ 0 then
        ({ score := wrapInt (st.score + scoreAward (m.damage now (60 * dt)).size ratio)
           returnBulletsPos :=
            if (RandomBool (30 / 100 * rank) st.rng).1 then
              st.returnBulletsPos ++ [(m.damage now (60 * dt)).collision.center]
            else st.returnBulletsPos
           rng := (RandomBool (30 / 100 * rank) st.rng).2 },
          m.damage now (60 * dt))
      else (st, m.damage now (60 * dt))
    else (st, m)
  else (st, m)

/-- The inner loop of `UpdateBarriers`: one activated barrier against every
meteorite, in order. -/
def barrierHitLoop (now dt rank ratio : ℚ) (b : Barrier) :
    HitState → List Meteorite → HitState × List Meteorite
  | st, [] => (st, [])
  | st, m :: ms =>
    ((barrierHitLoop now dt rank ratio b (barrierHit now dt rank ratio b st m).1 ms).1,
      (barrierHit now dt rank ratio b st m).2 ::
        (barrierHitLoop now dt rank ratio b (barrierHit now dt rank ratio b st m).1 ms).2)

/-- The outer loop of `UpdateBarriers`: every barrier in order, only activated
ones damage. -/
def barrierLoop (now dt rank ratio : ℚ) :
    List Barrier → HitState → List Meteorite → HitState × List Meteorite
  | [], st, ms => (st, ms)
  | b :: bs, st, ms =>
    if b.isActivated then
      barrierLoop now dt rank ratio bs (barrierHitLoop now dt rank ratio b st ms).1
        (barrierHitLoop now dt rank ratio b st ms).2
    else barrierLoop now dt rank ratio bs st ms

/-- Random rotation speed drawn by the `Meteorite` constructor. -/
def randomRotationSpeed (g : Rng) : ℚ × Rng :=
  ((if (RandomBool (1 / 2) g).1 then 1 else -1) * (Random (12 / 10) (25 / 10) (RandomBool (1 / 2) g).2).1,
    (Random (12 / 10) (25 / 10) (RandomBool (1 / 2) g).2).2)

/-- The block of lines 479 to 483: the Return meteorite spawned for the
scheduled position `p`. -/
def returnBullet (env : Env) (now : ℚ) (player : Player) (p : Vec2) (g : Rng) :
    Meteorite × Rng :=
  let jitter := RandomVec2 env 8 g
  let speed := Random (-1) 0 jitter.2
  let angle := Random (-5) 5 speed.2
  let rot := randomRotationSpeed angle.2
  let vel : Circular :=
    ⟨speed.1, env.atan2Deg (player.pos.x - p.x) (p.y - player.pos.y) + angle.1⟩
  (Meteorite.new now rot.1 (p.add jitter.1) vel 10 MeteoriteType.Return, rot.2)

/-- Body of the return-fire loop of `UpdateBarriers` for one scheduled
position. -/
def returnFire (env : Env) (now : ℚ) (player : Player) (st : List Meteorite × Rng) (p : Vec2) :
    List Meteorite × Rng :=
  if p.x < player.pos.x then st
  else if (p.sub player.pos).length env < 60 then st
  else (st.1 ++ [(returnBullet env now player p st.2).1], (returnBullet env now player p st.2).2)

/-- Result of `UpdateBarriers`: the containers and the score it mutates, and the
random stream. -/
structure BarriersResult where
  barriers : List Barrier
  meteorites : List Meteorite
  score : Int
  rng : Rng
  deriving DecidableEq

/-- Source `UpdateBarriers`. -/
def UpdateBarriers (env : Env) (now dt : ℚ) (rng : Rng) (barriers : List Barrier)
    (player : Player) (meteorites : List Meteorite) (rank ratio : ℚ) (score : Int) :
    BarriersResult :=
  let alive := (barriers.map (Barrier.update env now dt player)).filter
    (fun b => b.isAlive env now)
  let hit := barrierLoop now dt rank ratio alive ⟨score, [], rng⟩ meteorites
  let fired := hit.1.returnBulletsPos.foldl (returnFire env now player) (hit.2, hit.1.rng)
  { barriers := alive, meteorites := fired.1, score := hit.1.score, rng := fired.2 }

/-- Source `IsPlayerInsideBarriers`. -/
def IsPlayerInsideBarriers (barriers : List Barrier) : Bool :=
  barriers.any (fun b => b.isPlayerInside)

/-! ## `Main` -/

/-- Simulation variables of `Main` that live across frames. -/
structure GameState where
  meteorites : List Meteorite
  barriers : List Barrier
  player : Player
  timeTitle : Stopwatch
  time : Stopwatch
  timerPlayerdead : Timer
  timerSpawnMeteorites : Timer
  timerSpawnBarriers : Timer
  ratio : ℚ
  score : Int
  hiscore : Int
  deriving DecidableEq

/-- What one iteration of `while (System::Update())` reads from the engine. -/
structure FrameInput where
  /-- Wall clock reading of the frame. -/
  now : ℚ
  /-- Value of `Scene::DeltaTime()`. -/
  dt : ℚ
  /-- Value of `Cursor::PosF()`. -/
  cursor : Vec2
  /-- Value of `MouseL.down()`. -/
  mouseLDown : Bool
  /-- Random samples drawn during the frame. -/
  rng : Rng
  /-- Indeterminate `collision_` of a `Player` constructed in the frame. -/
  indeterminate : Circle

/-- Variables of `Main` as declared before the loop (lines 533 to 545), at
clock reading `now`. -/
def initialState (env : Env) (now : ℚ) (indeterminate : Circle) : GameState :=
  { meteorites := []
    barriers := []
    player := Player.new env indeterminate
    timeTitle := ⟨some now⟩
    time := ⟨none⟩
    timerPlayerdead := ⟨2, none⟩
    timerSpawnMeteorites := ⟨2 / 10, some now⟩
    timerSpawnBarriers := ⟨8 / 10, some now⟩
    ratio := 1
    score := 0
    hiscore := 0 }

/-- Line 604: the clamped progress handed to `EaseInOutSine`. -/
def ratioProgress (env : Env) (playerX : ℚ) : ℚ :=
  Clamp ((playerX - (env.width : ℚ) * (2 / 10)) / (env.width : ℚ) * (8 / 10)) 0 1

/-- Line 604: the score ratio bonus. -/
def ratioBonus (env : Env) (isPlayerInsideBarriers : Bool) (playerX : ℚ) : ℚ :=
  if isPlayerInsideBarriers then 0 else env.easeInOutSine (ratioProgress env playerX)

/-- Lines 605 to 610: the score ratio after the frame. -/
def updateRatio (ratio bonus dt : ℚ) : ℚ :=
  Clamp (if bonus ≤ 1 / 1000 then ratio + bonus * dt - 1 / 10 * dt else ratio + bonus * dt) 1 8

/-- One meteorite of the spawner, lines 619 to 622. -/
def spawnMeteorite (env : Env) (now rank : ℚ) (g : Rng) : Meteorite × Rng :=
  let pos := RandomVec2In ((RectF.mk env.width 0 16 env.height).stretchedXY 0 (-16)) g
  let speed := Random (75 / 100 - 3 / 10 * rank) (3 + 5 * rank) pos.2
  let angle := Random (-20) 20 speed.2
  let size := Random (-8) (8 + 10 * rank) angle.2
  let rot := randomRotationSpeed size.2
  (Meteorite.new now rot.1 pos.1 ⟨speed.1, 270 + angle.1⟩ (16 + size.1)
    MeteoriteType.Destroyable, rot.2)

/-- The spawner's `for` loop, `n` iterations. -/
def spawnMeteorites (env : Env) (now rank : ℚ) : Nat → List Meteorite × Rng → List Meteorite × Rng
  | 0, st => st
  | n + 1, st =>
    spawnMeteorites env now rank n
      (st.1 ++ [(spawnMeteorite env now rank st.2).1], (spawnMeteorite env now rank st.2).2)

/-- The barrier of the spawner, lines 631 to 634. -/
def spawnBarrier (env : Env) (now : ℚ) (g : Rng) : Barrier × Rng :=
  let pos := RandomVec2In ((RectF.mk 0 0 16 env.height).stretchedXY 0 (-48)) g
  let speed := Random 5 15 pos.2
  let angle := Random 0 20 speed.2
  let size := Random 0 60 angle.2
  (Barrier.new now pos.1
    ⟨speed.1, 90 + Sign ((env.height : ℚ) / 2 - pos.1.y) * angle.1⟩ (20 + size.1), size.2)

/-- The block `if (time.isRunning())` of the main loop, lines 595 to 688. -/
def playFrame (env : Env) (inp : FrameInput) (s : GameState) : GameState :=
  let rank := env.easeInOutSine (Clamp (s.time.sF inp.now / 120) 0 1)
  let isPlayerInsideBarriers := IsPlayerInsideBarriers s.barriers
  let ratio := updateRatio s.ratio (ratioBonus env isPlayerInsideBarriers s.player.pos.x) inp.dt
  let count := RandomInt (toInt (1 + 2 * rank)) (toInt (6 + 4 * rank)) inp.rng
  let spawnedM : (List Meteorite × Rng) × Timer :=
    if s.timerSpawnMeteorites.reachedZero inp.now then
      (spawnMeteorites env inp.now rank count.1.toNat (s.meteorites, count.2),
        s.timerSpawnMeteorites.restart inp.now)
    else ((s.meteorites, inp.rng), s.timerSpawnMeteorites)
  let period := Random (75 / 100 - 2 / 10 * rank) (15 / 10 - 3 / 10 * rank) spawnedM.1.2
  let spawnedB : (List Barrier × Rng) × Timer :=
    if s.timerSpawnBarriers.reachedZero inp.now then
      ((s.barriers ++ [(spawnBarrier env inp.now period.2).1], (spawnBarrier env inp.now period.2).2),
        s.timerSpawnBarriers.restartWith period.1 inp.now)
    else ((s.barriers, spawnedM.1.2), s.timerSpawnBarriers)
  let ub := UpdateBarriers env inp.now inp.dt spawnedB.1.2 spawnedB.1.1 s.player spawnedM.1.1
    rank ratio s.score
  let um := UpdateMeteorites env inp.now inp.dt ub.meteorites s.player
  if um.2.life ≤ 0 ∧ s.timerPlayerdead.reachedZero inp.now then
    { meteorites := []
      barriers := []
      player := Player.new env inp.indeterminate
      timeTitle := s.timeTitle.restart inp.now
      time := s.time.reset
      timerPlayerdead := s.timerPlayerdead.reset
      timerSpawnMeteorites := spawnedM.2
      timerSpawnBarriers := spawnedB.2
      ratio := ratio
      score := 0
      hiscore := if s.hiscore < ub.score then ub.score else s.hiscore }
  else
    { meteorites := um.1
      barriers := ub.barriers
      player := um.2.update env inp.cursor inp.dt
      timeTitle := s.timeTitle
      time := s.time
      timerPlayerdead :=
        if um.2.life ≤ 0 ∧ ¬ s.timerPlayerdead.isRunning inp.now then
          s.timerPlayerdead.restartWith 2 inp.now
        else s.timerPlayerdead
      timerSpawnMeteorites := spawnedM.2
      timerSpawnBarriers := spawnedB.2
      ratio := ratio
      score := ub.score
      hiscore := s.hiscore }

/-- One iteration of the main loop: the title block (lines 581 to 592), then the
play block when `time` is running. -/
def MainFrame (env : Env) (inp : FrameInput) (s : GameState) : GameState :=
  let s1 : GameState :=
    if s.timeTitle.isRunning ∧ inp.mouseLDown then
      { s with timeTitle := s.timeTitle.reset, time := s.time.restart inp.now }
    else s
  if s1.time.isRunning then playFrame env inp s1 else s1

/-- The main loop over a finite sequence of frames, from the state `s`. -/
def runFrames (env : Env) (s : GameState) (inputs : List FrameInput) : GameState :=
  inputs.foldl (fun st inp => MainFrame env inp st) s

/-- A round begins in the frame `inp` from state `s`: the title is showing and
the mouse button goes down (lines 581 to 587). -/
def roundBegins (s : GameState) (inp : FrameInput) : Bool :=
  s.timeTitle.isRunning && inp.mouseLDown

/-! ## Reference environment and sample values -/

/-- Rational stand-in for the sine of an angle in degrees (the classical
rational approximation on a half turn, extended by symmetry); exact at every
multiple of 30 degrees that has a rational sine. -/
def refSin (x : ℚ) : ℚ :=
  let t := x - 360 * (⌊x / 360⌋ : ℚ)
  if t ≤ 180 then 4 * t * (180 - t) / (40500 - t * (180 - t))
  else -(4 * (t - 180) * (360 - t) / (40500 - (t - 180) * (360 - t)))

/-- Rational stand-in for the arc tangent of `y / x` in degrees, by quadrant. -/
def refAtan2 (y x : ℚ) : ℚ :=
  if x = 0 then (if 0 < y then 90 else if y < 0 then -90 else 0)
  else
    let z := y / x
    let a := if |z| ≤ 1 then 45 * z * (1 + 27 / 100 * (1 - |z|))
      else Sign z * 90 - 45 / z * (1 + 27 / 100 * (1 - |1 / z|))
    if 0 < x then a else if 0 ≤ y then a + 180 else a - 180

/-- Newton iteration for the integer square root of `n` from the guess `g`. -/
def natSqrtIter (n : Nat) : Nat → Nat → Nat
  | 0, g => g
  | fuel + 1, g => if (g + n / g) / 2 < g then natSqrtIter n fuel ((g + n / g) / 2) else g

/-- Integer square root, rounded down. -/
def natSqrt (n : Nat) : Nat := if n ≤ 1 then n else natSqrtIter n n n

/-- Rational stand-in for the square root: exact on squares of rationals. -/
def refSqrt (q : ℚ) : ℚ := (natSqrt q.num.toNat : ℚ) / (natSqrt q.den : ℚ)

/-- Reference environment: an 800 by 600 scene with rational stand-ins for the
engine numerics.  The square root is exact on squares of rationals. -/
def refEnv : Env :=
  { width := 800
    height := 600
    sqrt := refSqrt
    sinDeg := refSin
    cosDeg := fun x => refSin (x + 90)
    atan2Deg := refAtan2
    easeInOutSine := fun t => (1 - refSin (180 * t + 90)) / 2 }


/-! ## Sample values -/

/-- A barrier of base size 30 spawned at clock reading 8 and activated at 9,
drifting right, with collision circle of radius 51 around (100, 100). -/
def sampleBarrier : Barrier :=
  { pos := ⟨100, 100⟩
    velocity := ⟨3 / 2, 90⟩
    size := 30
    time := ⟨some 8⟩
    timeActivated := ⟨some 9⟩
    collision := ⟨⟨100, 100⟩, 51⟩
    isPlayerInside := true }

/-- A Destroyable meteorite of size 20 with half a point of health left,
inside `sampleBarrier`. -/
def weakMeteorite : Meteorite :=
  { pos := ⟨110, 100⟩
    velocity := ⟨1 / 5, 270⟩
    size := 20
    time := ⟨some 0⟩
    rotationSpeed := 2
    collision := ⟨⟨110, 100⟩, 20⟩
    life := 1 / 2
    timerDamaged := ⟨1 / 5, some (99 / 10)⟩
    damaged := true
    type := MeteoriteType.Destroyable }

/-- The meteorite `m` after the body of the inner loop of `UpdateBarriers` for
the barrier `b`. -/
def hitNext (now dt : ℚ) (b : Barrier) (m : Meteorite) : Meteorite :=
  if b.collision.intersectsCircle m.collision = true ∧ m.life ≥ 0 then
    m.damage now (60 * dt)
  else m

/-- A meteorite of size 20 spawned at the right edge at clock reading 0, moved
for half a second and then struck by the player (damage `9999 * dt`). -/
def struckMeteorite : Meteorite :=
  ((Meteorite.new 0 2 ⟨800, 300⟩ ⟨1, 270⟩ 20 MeteoriteType.Destroyable).update refEnv
    (1 / 2)).damage (1 / 2) (9999 * (1 / 2))

/-- A call on a meteorite: `update()` in a frame of length `dt`, or
`damage(amount)` at clock reading `now`. -/
inductive MeteoriteCall where
  | update (dt : ℚ)
  | damage (now amount : ℚ)
  deriving DecidableEq

/-- Perform one call. -/
def MeteoriteCall.run (env : Env) : MeteoriteCall → Meteorite → Meteorite
  | MeteoriteCall.update dt, m => m.update env dt
  | MeteoriteCall.damage now amount, m => m.damage now amount

/-- Perform a sequence of calls, first to last. -/
def runCalls (env : Env) (m : Meteorite) (calls : List MeteoriteCall) : Meteorite :=
  calls.foldl (fun acc c => c.run env acc) m

/-- A live player at (100, 100). -/
def samplePlayer : Player :=
  { pos := ⟨100, 100⟩, life := 1, collision := ⟨⟨100, 100⟩, 16⟩ }

/-- A meteorite that has just taken lethal damage: health below zero. -/
def deadMeteorite : Meteorite := { weakMeteorite with life := -1 / 2 }

/-- Two distinct undamaged meteorites of size 20 drifting left, both about to
cover the point (100, 100). -/
def leftMeteorite : Meteorite :=
  { pos := ⟨96, 100⟩
    velocity := ⟨1, 270⟩
    size := 20
    time := ⟨some 0⟩
    rotationSpeed := 2
    collision := ⟨⟨97, 100⟩, 20⟩
    life := 20
    timerDamaged := ⟨1 / 5, none⟩
    damaged := false
    type := MeteoriteType.Destroyable }

/-- See `leftMeteorite`. -/
def rightMeteorite : Meteorite :=
  { leftMeteorite with pos := ⟨106, 100⟩, collision := ⟨⟨107, 100⟩, 20⟩ }

/-- A second activated barrier, overlapping `sampleBarrier`. -/
def secondBarrier : Barrier :=
  { sampleBarrier with pos := ⟨130, 100⟩, collision := ⟨⟨130, 100⟩, 51⟩ }

/-- A Destroyable meteorite of size 16 with exactly one point of health left,
inside both sample barriers and away from `samplePlayer`. -/
def unitMeteorite : Meteorite :=
  { pos := ⟨140, 100⟩
    velocity := ⟨1 / 5, 270⟩
    size := 16
    time := ⟨some 0⟩
    rotationSpeed := 2
    collision := ⟨⟨140, 100⟩, 16⟩
    life := 1
    timerDamaged := ⟨1 / 5, some (99 / 10)⟩
    damaged := true
    type := MeteoriteType.Destroyable }

/-- Frame in which the first round is started: the mouse button goes down with
the cursor at (660, 300); one meteorite of size 23 is spawned at (800, 300)
with speed 1 and one barrier at (0, 48). -/
def frameStart : FrameInput :=
  { now := 1
    dt := 1
    cursor := ⟨660, 300⟩
    mouseLDown := true
    rng := [0, 0, 1 / 2, 1 / 9, 1 / 2, 15 / 16, 0, 0, 0, 0, 0, 0, 0, 0]
    indeterminate := ⟨⟨0, 0⟩, 0⟩ }

/-- Frame one second later: the meteorite reaches the player. -/
def frameHit : FrameInput :=
  { now := 2
    dt := 1
    cursor := ⟨660, 300⟩
    mouseLDown := false
    rng := [0, 0, 0, 0, 1 / 2, 0, 0, 0, 0, 0, 0, 0, 0, 0]
    indeterminate := ⟨⟨0, 0⟩, 0⟩ }

/-- Frame two seconds after the hit: the dead-player delay has run out. -/
def frameReset : FrameInput :=
  { now := 4
    dt := 2
    cursor := ⟨660, 300⟩
    mouseLDown := false
    rng := [0, 0, 0, 0, 1 / 2, 0, 0, 0, 0, 0, 0, 0, 0, 0]
    indeterminate := ⟨⟨0, 0⟩, 0⟩ }

/-- Frame in which the second round is started. -/
def frameRestart : FrameInput :=
  { now := 5
    dt := 1
    cursor := ⟨660, 300⟩
    mouseLDown := true
    rng := [0, 0, 1 / 2, 1 / 9, 1 / 2, 15 / 16, 0, 0, 0, 0, 0, 0, 0, 0]
    indeterminate := ⟨⟨0, 0⟩, 0⟩ }

/-! ## Theorems -/

theorem damage_type (now a : ℚ) (m : Meteorite) : (m.damage now a).type = m.type := by
  unfold Meteorite.damage
  dsimp only
  split_ifs <;> rfl

theorem damage_collision (now a : ℚ) (m : Meteorite) :
    (m.damage now a).collision = m.collision := by
  unfold Meteorite.damage
  dsimp only
  split_ifs <;> rfl

theorem barrierHit_snd (now dt rank ratio : ℚ) (b : Barrier) (st : HitState) (m : Meteorite) :
    (barrierHit now dt rank ratio b st m).2 = hitNext now dt b m := by
  unfold barrierHit hitNext
  by_cases h1 : b.collision.intersectsCircle m.collision = true
  · by_cases h2 : m.life ≥ 0
    · have hc : b.collision.intersectsCircle m.collision = true ∧ m.life ≥ 0 := ⟨h1, h2⟩
      rw [if_pos h1, if_pos h2, if_pos hc]
      split_ifs <;> rfl
    · have hc : ¬ (b.collision.intersectsCircle m.collision = true ∧ m.life ≥ 0) :=
        fun h => h2 h.2
      rw [if_pos h1, if_neg h2, if_neg hc]
  · have hc : ¬ (b.collision.intersectsCircle m.collision = true ∧ m.life ≥ 0) :=
      fun h => h1 h.1
    rw [if_neg h1, if_neg hc]

/-- C3 fails as stated: a meteorite struck by the player half a second after it
was spawned has elapsed lifetime below one second and is not alive. -/
theorem isAlive_false_in_grace_period :
    struckMeteorite.time.sF (1 / 2) < 1 ∧ struckMeteorite.isAlive refEnv (1 / 2) = false := by
  decide!

theorem isAlive_unfold (env : Env) (now : ℚ) (m : Meteorite) :
    m.isAlive env now
      = (decide (0 ≤ m.life) &&
          (decide (m.time.sF now < 1) ||
            m.collision.intersectsRect ((sceneRect env).stretched 32))) := by
  unfold Meteorite.isAlive
  by_cases h : m.life < 0
  · simp [h, not_le.mpr h]
  · by_cases h2 : m.time.sF now < 1
    · simp [h, h2, not_lt.mp h]
    · simp [h, h2, not_lt.mp h]

/-- C3, amended: `isAlive` is true exactly when health is at least 0 and either
the elapsed lifetime is below one second or the collision circle intersects
the screen rectangle stretched by 32; so health below 0 gives false also in
the first second. -/
theorem isAlive_eq (env : Env) (now : ℚ) (m : Meteorite) :
    m.isAlive env now
      = (decide (0 ≤ m.life) &&
          (decide (m.time.sF now < 1) ||
            m.collision.intersectsRect ((sceneRect env).stretched 32))) :=
  isAlive_unfold env now m

theorem update_destroyable (env : Env) (dt : ℚ) (m : Meteorite)
    (h : m.type = MeteoriteType.Destroyable) :
    (m.update env dt).velocity = m.velocity ∧ (m.update env dt).type = m.type
      ∧ (m.update env dt).damaged = m.damaged := by
  unfold Meteorite.update
  simp [h]

theorem damage_first (now a : ℚ) (m : Meteorite) (h : m.type = MeteoriteType.Destroyable)
    (hd : m.damaged = false) :
    (m.damage now a).velocity.r = m.velocity.r * (1 / 5) ∧ (m.damage now a).damaged = true := by
  unfold Meteorite.damage
  simp only [h, ne_eq, not_true_eq_false, if_false]
  split_ifs <;> simp_all

theorem damage_later (now a : ℚ) (m : Meteorite) (hd : m.damaged = true) :
    (m.damage now a).velocity = m.velocity ∧ (m.damage now a).damaged = true := by
  unfold Meteorite.damage
  dsimp only
  split_ifs <;> simp_all

theorem runCalls_damaged (env : Env) (calls : List MeteoriteCall) :
    ∀ m : Meteorite, m.type = MeteoriteType.Destroyable → m.damaged = true →
      (runCalls env m calls).velocity = m.velocity := by
  induction calls with
  | nil => intro m _ _; rfl
  | cons c cs ih =>
    intro m hty hd
    cases c with
    | update dt =>
      have hu := update_destroyable env dt m hty
      have := ih (m.update env dt) (hu.2.1.trans hty) (hu.2.2.trans hd)
      simpa [runCalls, MeteoriteCall.run, hu.1] using this
    | damage now a =>
      have hl := damage_later now a m hd
      have := ih (m.damage now a) ((damage_type now a m).trans hty) hl.2
      simpa [runCalls, MeteoriteCall.run, hl.1] using this

theorem runCalls_undamaged (env : Env) (calls : List MeteoriteCall) :
    ∀ m : Meteorite, m.type = MeteoriteType.Destroyable → m.damaged = false →
      (∃ t a, MeteoriteCall.damage t a ∈ calls) →
      (runCalls env m calls).velocity.r = m.velocity.r * (1 / 5) := by
  induction calls with
  | nil => intro m _ _ h; obtain ⟨t, a, h⟩ := h; simp at h
  | cons c cs ih =>
    intro m hty hd hex
    cases c with
    | update dt =>
      have hu := update_destroyable env dt m hty
      have hex2 : ∃ t a, MeteoriteCall.damage t a ∈ cs := by
        obtain ⟨t, a, h⟩ := hex
        exact ⟨t, a, by simpa using h⟩
      have := ih (m.update env dt) (hu.2.1.trans hty) (hu.2.2.trans hd) hex2
      simpa [runCalls, MeteoriteCall.run, hu.1] using this
    | damage now a =>
      have hf := damage_first now a m hty hd
      have := runCalls_damaged env cs (m.damage now a) ((damage_type now a m).trans hty) hf.2
      have h2 : (runCalls env m (MeteoriteCall.damage now a :: cs))
          = runCalls env (m.damage now a) cs := rfl
      rw [h2, this, hf.1]

/-- C7: a Destroyable meteorite constructed with speed `v`, after any sequence
of `update()` and `damage()` calls that contains at least one `damage()`, has
speed exactly `0.2 * v`. -/
theorem damage_slows_once (env : Env) (now rot : ℚ) (pos : Vec2) (vel : Circular) (size : ℚ)
    (calls : List MeteoriteCall) (h : ∃ t a, MeteoriteCall.damage t a ∈ calls) :
    (runCalls env (Meteorite.new now rot pos vel size MeteoriteType.Destroyable) calls).velocity.r
      = 2 / 10 * vel.r := by
  have := runCalls_undamaged env calls
    (Meteorite.new now rot pos vel size MeteoriteType.Destroyable) rfl rfl h
  rw [this]
  simp only [Meteorite.new]
  ring

/-- C7 at a concrete input: three `damage()` calls interleaved with two
`update()` calls on a meteorite of speed 3. -/
theorem damage_slows_once_witness :
    (∃ t a, MeteoriteCall.damage t a ∈
        [MeteoriteCall.update (1 / 60), MeteoriteCall.damage 1 1, MeteoriteCall.update (1 / 60),
          MeteoriteCall.damage 2 1, MeteoriteCall.damage 3 5])
    ∧ (runCalls refEnv (Meteorite.new 0 2 ⟨800, 300⟩ ⟨3, 270⟩ 20 MeteoriteType.Destroyable)
        [MeteoriteCall.update (1 / 60), MeteoriteCall.damage 1 1, MeteoriteCall.update (1 / 60),
          MeteoriteCall.damage 2 1, MeteoriteCall.damage 3 5]).velocity.r
      = 2 / 10 * (3 : ℚ) :=
  ⟨⟨1, 1, by decide⟩,
    damage_slows_once refEnv 0 2 ⟨800, 300⟩ ⟨3, 270⟩ 20 _ ⟨1, 1, by decide⟩⟩
theorem Clamp_mem (x lo hi : ℚ) (h : lo ≤ hi) : lo ≤ Clamp x lo hi ∧ Clamp x lo hi ≤ hi := by
  unfold Clamp
  split_ifs with h1 h2
  · exact ⟨le_refl _, h⟩
  · exact ⟨h, le_refl _⟩
  · exact ⟨not_lt.mp h1, not_lt.mp h2⟩

theorem updateRatio_mem (ratio bonus dt : ℚ) :
    1 ≤ updateRatio ratio bonus dt ∧ updateRatio ratio bonus dt ≤ 8 :=
  Clamp_mem _ 1 8 (by norm_num)

theorem playFrame_ratio (env : Env) (inp : FrameInput) (s : GameState) :
    (playFrame env inp s).ratio
      = updateRatio s.ratio
          (ratioBonus env (IsPlayerInsideBarriers s.barriers) s.player.pos.x) inp.dt := by
  unfold playFrame
  dsimp only
  split_ifs <;> rfl

theorem MainFrame_ratio_mem (env : Env) (inp : FrameInput) (s : GameState)
    (h : 1 ≤ s.ratio ∧ s.ratio ≤ 8) :
    1 ≤ (MainFrame env inp s).ratio ∧ (MainFrame env inp s).ratio ≤ 8 := by
  unfold MainFrame
  dsimp only
  split_ifs
  · rw [playFrame_ratio]; exact updateRatio_mem _ _ _
  · exact h
  · rw [playFrame_ratio]; exact updateRatio_mem _ _ _
  · exact h

theorem runFrames_ratio_mem (env : Env) (inputs : List FrameInput) :
    ∀ s : GameState, 1 ≤ s.ratio ∧ s.ratio ≤ 8 →
      1 ≤ (runFrames env s inputs).ratio ∧ (runFrames env s inputs).ratio ≤ 8 := by
  induction inputs with
  | nil => intro s h; exact h
  | cons inp rest ih =>
    intro s h
    exact ih (MainFrame env inp s) (MainFrame_ratio_mem env inp s h)

/-- C4: whatever the ratio before the frame, the player position, the barrier
state and the delta time, the ratio computed by the per-frame update (add
`bonus * dt`, subtract `0.1 * dt` when `bonus ≤ 1e-3`, clamp) lies in [1, 8];
and after every frame of every run of the main loop from the initial state the
ratio lies in [1, 8]. -/
theorem ratio_in_range (env : Env) :
    (∀ (ratio dt : ℚ) (player : Player) (barriers : List Barrier),
        1 ≤ updateRatio ratio (ratioBonus env (IsPlayerInsideBarriers barriers) player.pos.x) dt
          ∧ updateRatio ratio (ratioBonus env (IsPlayerInsideBarriers barriers) player.pos.x) dt
            ≤ 8)
      ∧ (∀ (now : ℚ) (c : Circle) (inputs : List FrameInput),
          1 ≤ (runFrames env (initialState env now c) inputs).ratio
            ∧ (runFrames env (initialState env now c) inputs).ratio ≤ 8) := by
  refine ⟨fun ratio dt player barriers => updateRatio_mem _ _ _, fun now c inputs => ?_⟩
  exact runFrames_ratio_mem env inputs (initialState env now c)
    ⟨le_of_eq rfl, by simp [initialState]⟩

/-- C8, the code at the claim's point: for every positive screen width `W` the
clamped progress handed to the easing function is 0 for player x up to
`0.2 * W` and does not decrease as x grows, but at player x = W it is 16/25,
not 1, and it is at most 16/25 everywhere on the screen; the bonus at x = W is
the easing function at 16/25. -/
theorem ratioProgress_full_width (env : Env) (hW : 0 < env.width) :
    (∀ x : ℚ, x ≤ env.width * (2 / 10) → ratioProgress env x = 0)
      ∧ (∀ x y : ℚ, x ≤ y → ratioProgress env x ≤ ratioProgress env y)
      ∧ ratioProgress env env.width = 16 / 25
      ∧ (∀ x : ℚ, x ≤ env.width → ratioProgress env x ≤ 16 / 25)
      ∧ ratioBonus env false env.width = env.easeInOutSine (16 / 25) := by
  have hq : (0 : ℚ) < (env.width : ℚ) := by exact_mod_cast hW
  have hmono : ∀ x y : ℚ, x ≤ y →
      (x - (env.width : ℚ) * (2 / 10)) / (env.width : ℚ) * (8 / 10)
        ≤ (y - (env.width : ℚ) * (2 / 10)) / (env.width : ℚ) * (8 / 10) := by
    intro x y hxy
    apply mul_le_mul_of_nonneg_right _ (by norm_num)
    apply div_le_div_of_nonneg_right _ hq.le
    linarith
  have hzero : ((env.width : ℚ) * (2 / 10) - (env.width : ℚ) * (2 / 10)) / (env.width : ℚ)
      * (8 / 10) = 0 := by
    rw [sub_self, zero_div, zero_mul]
  have hfull : ((env.width : ℚ) - (env.width : ℚ) * (2 / 10)) / (env.width : ℚ) * (8 / 10)
      = 16 / 25 := by
    field_simp
    ring
  have h1 : ratioProgress env env.width = 16 / 25 := by
    unfold ratioProgress
    rw [hfull]
    unfold Clamp
    norm_num
  have hClampMono : ∀ a b : ℚ, a ≤ b → Clamp a 0 1 ≤ Clamp b 0 1 := by
    intro a b hab
    unfold Clamp
    split_ifs <;> linarith
  refine ⟨?_, ?_, h1, ?_, ?_⟩
  · intro x hx
    have hle := hmono x _ hx
    rw [hzero] at hle
    unfold ratioProgress Clamp
    split_ifs <;> linarith
  · intro x y hxy
    exact hClampMono _ _ (hmono x y hxy)
  · intro x hx
    rw [← h1]
    exact hClampMono _ _ (hmono x _ hx)
  · simp [ratioBonus, h1]

/-- C8 at the reference scene, 800 wide. -/
theorem ratioProgress_full_width_witness :
    (0 : Int) < refEnv.width ∧
      ((∀ x : ℚ, x ≤ refEnv.width * (2 / 10) → ratioProgress refEnv x = 0)
        ∧ (∀ x y : ℚ, x ≤ y → ratioProgress refEnv x ≤ ratioProgress refEnv y)
        ∧ ratioProgress refEnv refEnv.width = 16 / 25
        ∧ (∀ x : ℚ, x ≤ refEnv.width → ratioProgress refEnv x ≤ 16 / 25)
        ∧ ratioBonus refEnv false refEnv.width = refEnv.easeInOutSine (16 / 25)) :=
  ⟨by decide, ratioProgress_full_width refEnv (by decide)⟩

theorem returnFire_fst (env : Env) (now : ℚ) (player : Player) (st : List Meteorite × Rng)
    (p : Vec2) :
    (returnFire env now player st p).1
        = (if p.x < player.pos.x ∨ (p.sub player.pos).length env < 60 then st.1
          else st.1 ++ [(returnBullet env now player p st.2).1]) := by
  unfold returnFire
  by_cases h1 : p.x < player.pos.x
  · simp [h1]
  · by_cases h2 : (p.sub player.pos).length env < 60
    · simp [h1, h2]
    · simp [h1, h2]

theorem meteoriteStep_player (env : Env) (now dt : ℚ) (p : Player) (m : Meteorite) :
    (meteoriteStep env now dt p m).1
      = if p.life > 0 ∧ (m.update env dt).collision.intersectsPoint p.collision.center = true
        then p.damage else p := by
  unfold meteoriteStep
  split_ifs <;> rfl

theorem meteoriteLoop_player (env : Env) (now dt : ℚ) (ms : List Meteorite) :
    ∀ p : Player,
      (meteoriteLoop env now dt p ms).1.collision = p.collision
        ∧ (meteoriteLoop env now dt p ms).1.life
          = if 0 < p.life then
              max 0 (p.life - ((ms.countP
                (fun m => (m.update env dt).collision.intersectsPoint p.collision.center) : Nat) : Int))
            else p.life := by
  induction ms with
  | nil =>
    intro p
    simp only [meteoriteLoop, List.countP_nil, Nat.cast_zero, sub_zero, true_and]
    split_ifs with h
    · exact (max_eq_right h.le).symm
    · rfl
  | cons m rest ih =>
    intro p
    have hstep := meteoriteStep_player env now dt p m
    obtain ⟨hc, hl⟩ := ih (meteoriteStep env now dt p m).1
    simp only [meteoriteLoop]
    rw [hc, hl]
    clear hc hl
    by_cases hcond : p.life > 0 ∧
        (m.update env dt).collision.intersectsPoint p.collision.center = true
    · rw [hstep, if_pos hcond]
      obtain ⟨hp, ho⟩ := hcond
      have hcount : List.countP
          (fun m => (m.update env dt).collision.intersectsPoint p.collision.center) (m :: rest)
          = List.countP
            (fun m => (m.update env dt).collision.intersectsPoint p.collision.center) rest + 1 := by
        simp [List.countP_cons, ho]
      rw [hcount]
      simp only [Player.damage, true_and]
      generalize List.countP
        (fun m => (m.update env dt).collision.intersectsPoint p.collision.center) rest = k
      have hp2 : 0 < p.life := hp
      rw [if_pos hp2]
      push_cast
      split_ifs with h1
      · congr 1
        ring
      · have h3 : p.life - (↑k + 1) ≤ 0 := by omega
        rw [max_eq_left h3]
        omega
    · rw [hstep, if_neg hcond]
      refine ⟨rfl, ?_⟩
      by_cases hp : 0 < p.life
      · have ho : ¬ (m.update env dt).collision.intersectsPoint p.collision.center = true :=
          fun h => hcond ⟨hp, h⟩
        have hcount : List.countP
            (fun m => (m.update env dt).collision.intersectsPoint p.collision.center) (m :: rest)
            = List.countP
              (fun m => (m.update env dt).collision.intersectsPoint p.collision.center) rest := by
          simp [List.countP_cons, ho]
        rw [hcount]
      · rw [if_neg hp, if_neg hp]

/-- C2 fails as stated: a player with life 1 whose position lies in the
collision circles of two distinct meteorites has life 0 after
`UpdateMeteorites`, not -1. -/
theorem two_overlapping_meteorites_life :
    leftMeteorite ≠ rightMeteorite
      ∧ samplePlayer.life = 1
      ∧ (leftMeteorite.update refEnv (1 / 60)).collision.intersectsPoint samplePlayer.pos = true
      ∧ (rightMeteorite.update refEnv (1 / 60)).collision.intersectsPoint samplePlayer.pos = true
      ∧ (UpdateMeteorites refEnv 10 (1 / 60) [leftMeteorite, rightMeteorite] samplePlayer).2.life = 0
      ∧ (UpdateMeteorites refEnv 10 (1 / 60) [leftMeteorite, rightMeteorite] samplePlayer).2.life
          ≠ -1 := by
  decide!

/-- C2, amended: in one call of `UpdateMeteorites` the player is damaged only
while its life is positive.  A player with life `L > 0` whose collision centre
lies in the (moved) collision circles of `k` meteorites of the list has life
`max 0 (L - k)` afterwards, so a player with life 1 overlapping two meteorites
ends with life 0; a player with life `≤ 0` keeps its life. -/
theorem updateMeteorites_player_life (env : Env) (now dt : ℚ) (ms : List Meteorite)
    (player : Player) :
    (UpdateMeteorites env now dt ms player).2.life
      = if 0 < player.life then
          max 0 (player.life - ((ms.countP
            (fun m => (m.update env dt).collision.intersectsPoint player.collision.center)
              : Nat) : Int))
        else player.life := by
  unfold UpdateMeteorites
  exact (meteoriteLoop_player env now dt ms player).2
theorem barrierHitLoop_snd (now dt rank ratio : ℚ) (b : Barrier) (ms : List Meteorite) :
    ∀ st : HitState,
      (barrierHitLoop now dt rank ratio b st ms).2 = ms.map (hitNext now dt b) := by
  induction ms with
  | nil => intro st; rfl
  | cons m rest ih =>
    intro st
    simp only [barrierHitLoop, List.map_cons, barrierHit_snd, ih]

theorem damaged_refl (now dt : ℚ) (ms : List Meteorite) :
    List.Forall₂ (fun m m2 => ∃ k : Nat, m2 = (Meteorite.damage now (60 * dt))^[k] m) ms ms := by
  induction ms with
  | nil => exact List.Forall₂.nil
  | cons m rest ih => exact List.Forall₂.cons ⟨0, rfl⟩ ih

theorem hitNext_damaged (now dt : ℚ) (b : Barrier) (m m2 : Meteorite)
    (h : ∃ k : Nat, m2 = (Meteorite.damage now (60 * dt))^[k] (hitNext now dt b m)) :
    ∃ k : Nat, m2 = (Meteorite.damage now (60 * dt))^[k] m := by
  obtain ⟨k, hk⟩ := h
  unfold hitNext at hk
  split_ifs at hk
  · exact ⟨k + 1, by rw [hk, Function.iterate_succ_apply]⟩
  · exact ⟨k, hk⟩

theorem barrierLoop_damaged (now dt rank ratio : ℚ) (bs : List Barrier) :
    ∀ (st : HitState) (ms : List Meteorite),
      List.Forall₂ (fun m m2 => ∃ k : Nat, m2 = (Meteorite.damage now (60 * dt))^[k] m) ms
        (barrierLoop now dt rank ratio bs st ms).2 := by
  induction bs with
  | nil => intro st ms; exact damaged_refl now dt ms
  | cons b rest ih =>
    intro st ms
    simp only [barrierLoop]
    split_ifs
    · have h := ih (barrierHitLoop now dt rank ratio b st ms).1 (ms.map (hitNext now dt b))
      rw [barrierHitLoop_snd]
      rw [List.forall₂_map_left_iff] at h
      exact h.imp (fun m m2 hm => hitNext_damaged now dt b m m2 hm)
    · exact ih st ms

theorem returnFire_appends (env : Env) (now : ℚ) (player : Player) (ps : List Vec2) :
    ∀ st : List Meteorite × Rng,
      ∃ extra, (ps.foldl (returnFire env now player) st).1 = st.1 ++ extra
        ∧ ∀ x ∈ extra, x.type = MeteoriteType.Return := by
  induction ps with
  | nil => intro st; exact ⟨[], by simp, by simp⟩
  | cons p rest ih =>
    intro st
    obtain ⟨extra, h, hx⟩ := ih (returnFire env now player st p)
    rw [List.foldl_cons, h, returnFire_fst env now player st p]
    split_ifs
    · exact ⟨extra, rfl, hx⟩
    · refine ⟨(returnBullet env now player p st.2).1 :: extra, by simp, ?_⟩
      intro x hmem
      rcases List.mem_cons.mp hmem with heq | hin
      · rw [heq]; rfl
      · exact hx x hin

theorem updateBarriers_keeps (env : Env) (now dt : ℚ) (rng : Rng) (barriers : List Barrier)
    (player : Player) (ms : List Meteorite) (rank ratio : ℚ) (score : Int) :
    ∃ damaged extra,
      (UpdateBarriers env now dt rng barriers player ms rank ratio score).meteorites
          = damaged ++ extra
        ∧ List.Forall₂ (fun m m2 => ∃ k : Nat, m2 = (Meteorite.damage now (60 * dt))^[k] m)
            ms damaged
        ∧ ∀ x ∈ extra, x.type = MeteoriteType.Return := by
  unfold UpdateBarriers
  dsimp only
  obtain ⟨extra, h, hx⟩ := returnFire_appends env now player
    (barrierLoop now dt rank ratio
      ((barriers.map (Barrier.update env now dt player)).filter (fun b => b.isAlive env now))
      ⟨score, [], rng⟩ ms).1.returnBulletsPos
    ((barrierLoop now dt rank ratio
      ((barriers.map (Barrier.update env now dt player)).filter (fun b => b.isAlive env now))
      ⟨score, [], rng⟩ ms).2,
     (barrierLoop now dt rank ratio
      ((barriers.map (Barrier.update env now dt player)).filter (fun b => b.isAlive env now))
      ⟨score, [], rng⟩ ms).1.rng)
  exact ⟨_, extra, h, barrierLoop_damaged _ _ _ _ _ _ _, hx⟩

theorem meteoriteLoop_moved (env : Env) (now dt : ℚ) (ms : List Meteorite) :
    ∀ p : Player,
      List.Forall₂
        (fun m m2 => m2 = m.update env dt ∨ m2 = (m.update env dt).damage now (9999 * dt))
        ms (meteoriteLoop env now dt p ms).2 := by
  induction ms with
  | nil => intro p; exact List.Forall₂.nil
  | cons m rest ih =>
    intro p
    simp only [meteoriteLoop]
    refine List.Forall₂.cons ?_ (ih _)
    unfold meteoriteStep
    split_ifs
    · exact Or.inr rfl
    · exact Or.inl rfl

/-- C9 fails as stated: in one frame an activated barrier drives the health of
a meteorite from 1/2 to -1/2 in `UpdateBarriers` (and scores it); the
`UpdateMeteorites` call of the same frame still tests that meteorite against
the player and takes the player's life from 1 to 0. -/
theorem barrier_killed_meteorite_hits_player :
    weakMeteorite.life = 1 / 2
      ∧ (UpdateBarriers refEnv 10 (1 / 60) [] [sampleBarrier] samplePlayer [weakMeteorite]
          0 2 0).meteorites.map Meteorite.life = [-1 / 2]
      ∧ (UpdateBarriers refEnv 10 (1 / 60) [] [sampleBarrier] samplePlayer [weakMeteorite]
          0 2 0).score = 2200
      ∧ samplePlayer.life = 1
      ∧ (UpdateMeteorites refEnv 10 (1 / 60)
          (UpdateBarriers refEnv 10 (1 / 60) [] [sampleBarrier] samplePlayer [weakMeteorite]
            0 2 0).meteorites samplePlayer).2.life = 0 := by
  decide!

/-- C9, amended: `UpdateBarriers` removes no meteorite: the meteorites it was
given come back in order, each after some number of `damage(60 * dt)` calls,
followed by the Return-type return-fire meteorites.  In `UpdateMeteorites`
every meteorite of the list, whatever its health, is moved and tested against
the player: a player with life `L > 0` ends with life `max 0 (L - k)`, `k`
counting all listed meteorites whose moved circle covers the player's
collision centre, so a listed meteorite with health below 0 that covers a live
player costs the player a life.  The meteorites that fail `isAlive()` are
removed after that loop: the list left is the list of all moved (and possibly
struck) meteorites filtered by `isAlive()`, so every meteorite left is alive
and has health at least 0. -/
theorem removal_follows_collision (env : Env) (now dt : ℚ) :
    (∀ (rng : Rng) (barriers : List Barrier) (player : Player) (ms : List Meteorite)
        (rank ratio : ℚ) (score : Int),
        ∃ damaged extra,
          (UpdateBarriers env now dt rng barriers player ms rank ratio score).meteorites
              = damaged ++ extra
            ∧ List.Forall₂
                (fun m m2 => ∃ k : Nat, m2 = (Meteorite.damage now (60 * dt))^[k] m) ms damaged
            ∧ ∀ x ∈ extra, x.type = MeteoriteType.Return)
      ∧ (∀ (ms : List Meteorite) (player : Player),
          (UpdateMeteorites env now dt ms player).2.life
            = if 0 < player.life then
                max 0 (player.life - ((ms.countP
                  (fun m => (m.update env dt).collision.intersectsPoint player.collision.center)
                    : Nat) : Int))
              else player.life)
      ∧ (∀ (ms : List Meteorite) (player : Player) (m : Meteorite), m ∈ ms → 0 < player.life →
          (m.update env dt).collision.intersectsPoint player.collision.center = true →
          (UpdateMeteorites env now dt ms player).2.life < player.life)
      ∧ (∀ (ms : List Meteorite) (player : Player),
          ∃ moved : List Meteorite,
            List.Forall₂
                (fun m m2 =>
                  m2 = m.update env dt ∨ m2 = (m.update env dt).damage now (9999 * dt))
                ms moved
              ∧ (UpdateMeteorites env now dt ms player).1
                  = moved.filter (fun m => m.isAlive env now)
              ∧ ∀ m ∈ (UpdateMeteorites env now dt ms player).1,
                  m.isAlive env now = true ∧ 0 ≤ m.life) := by
  have hlife : ∀ (ms : List Meteorite) (player : Player),
      (UpdateMeteorites env now dt ms player).2.life
        = if 0 < player.life then
            max 0 (player.life - ((ms.countP
              (fun m => (m.update env dt).collision.intersectsPoint player.collision.center)
                : Nat) : Int))
          else player.life := by
    intro ms player
    unfold UpdateMeteorites
    exact (meteoriteLoop_player env now dt ms player).2
  refine ⟨fun rng barriers player ms rank ratio score =>
    updateBarriers_keeps env now dt rng barriers player ms rank ratio score, hlife, ?_, ?_⟩
  · intro ms player m hm hp ho
    rw [hlife, if_pos hp]
    have hk : 0 < ms.countP
        (fun m => (m.update env dt).collision.intersectsPoint player.collision.center) :=
      List.countP_pos_iff.mpr ⟨m, hm, ho⟩
    exact max_lt hp (by omega)
  · intro ms player
    refine ⟨(meteoriteLoop env now dt player ms).2, meteoriteLoop_moved env now dt ms player,
      rfl, ?_⟩
    intro m hm
    unfold UpdateMeteorites at hm
    have ha : m.isAlive env now = true := (List.mem_filter.mp hm).2
    refine ⟨ha, ?_⟩
    rw [isAlive_unfold] at ha
    simp only [Bool.and_eq_true, decide_eq_true_eq] at ha
    exact ha.1

/-- C9 at a concrete input: a listed meteorite with health -1/2 that covers the
live player costs the player a life in `UpdateMeteorites`. -/
theorem removal_follows_collision_witness :
    (deadMeteorite ∈ [deadMeteorite] ∧ 0 < samplePlayer.life
        ∧ (deadMeteorite.update refEnv (1 / 60)).collision.intersectsPoint
            samplePlayer.collision.center = true)
      ∧ (UpdateMeteorites refEnv 10 (1 / 60) [deadMeteorite] samplePlayer).2.life
          < samplePlayer.life :=
  ⟨by decide!, (removal_follows_collision refEnv 10 (1 / 60)).2.2.1 [deadMeteorite] samplePlayer
    deadMeteorite (by decide!) (by decide!) (by decide!)⟩

/-- C10, the code at the failing input: a meteorite of size 16 with health 1
inside two activated barriers, in a frame of 1/60 second at ratio 1.  The first
barrier brings its health to exactly 0 and scores 900; the second barrier
damages it again and scores 900 again in the same pass.  With one barrier the
meteorite survives `UpdateMeteorites` with health 0 and is scored a second
time by the next frame's `UpdateBarriers`. -/
theorem meteorite_scored_twice :
    scoreAward 16 1 = 900
      ∧ (UpdateBarriers refEnv 10 (1 / 60) [] [sampleBarrier, secondBarrier] samplePlayer
          [unitMeteorite] 0 1 0).score = 1800
      ∧ (UpdateBarriers refEnv 10 (1 / 60) [] [sampleBarrier] samplePlayer
          [unitMeteorite] 0 1 0).score = 900
      ∧ (UpdateMeteorites refEnv 10 (1 / 60)
          (UpdateBarriers refEnv 10 (1 / 60) [] [sampleBarrier] samplePlayer
            [unitMeteorite] 0 1 0).meteorites samplePlayer).1.map Meteorite.life = [0]
      ∧ (UpdateBarriers refEnv (601 / 60) (1 / 60) []
          (UpdateBarriers refEnv 10 (1 / 60) [] [sampleBarrier] samplePlayer
            [unitMeteorite] 0 1 0).barriers
          (UpdateMeteorites refEnv 10 (1 / 60)
            (UpdateBarriers refEnv 10 (1 / 60) [] [sampleBarrier] samplePlayer
              [unitMeteorite] 0 1 0).meteorites samplePlayer).2
          (UpdateMeteorites refEnv 10 (1 / 60)
            (UpdateBarriers refEnv 10 (1 / 60) [] [sampleBarrier] samplePlayer
              [unitMeteorite] 0 1 0).meteorites samplePlayer).1
          0 1 900).score = 1800 := by
  decide!

/-- C5, the code at the failing input.  The first round starts at ratio 1; the
player moves to x = 660 outside every barrier, the ratio rises to 3/2, a
meteorite takes the player's life, the ratio rises to 5/2 during the two
second delay, and the reset clears the meteorites and barriers, zeroes the
score and returns to the title without touching the ratio: the second round
begins at ratio 5/2. -/
theorem second_round_keeps_ratio :
    roundBegins (initialState refEnv 0 ⟨⟨0, 0⟩, 0⟩) frameStart = true
      ∧ (initialState refEnv 0 ⟨⟨0, 0⟩, 0⟩).ratio = 1
      ∧ (runFrames refEnv (initialState refEnv 0 ⟨⟨0, 0⟩, 0⟩) [frameStart, frameHit]).player.life
          = 0
      ∧ (runFrames refEnv (initialState refEnv 0 ⟨⟨0, 0⟩, 0⟩)
          [frameStart, frameHit, frameReset]).meteorites = []
      ∧ (runFrames refEnv (initialState refEnv 0 ⟨⟨0, 0⟩, 0⟩)
          [frameStart, frameHit, frameReset]).score = 0
      ∧ roundBegins (runFrames refEnv (initialState refEnv 0 ⟨⟨0, 0⟩, 0⟩)
          [frameStart, frameHit, frameReset]) frameRestart = true
      ∧ (runFrames refEnv (initialState refEnv 0 ⟨⟨0, 0⟩, 0⟩)
          [frameStart, frameHit, frameReset]).ratio = 5 / 2 := by
  decide!

end MeteoriteGame
